import Mathlib

/-!
Verification development for the `models.py` core of the
ExploringNearEarthObjects repository: the `NearEarthObject` and
`CloseApproach` entities, their construction-time normalization of raw
string fields, and their textual representations.

Python floats are IEEE doubles; this development models the finite values
produced by parsing decimal text exactly, as scaled decimal integers
`m * 10 ^ e`, together with the special values NaN and signed infinity.
Binary rounding, overflow of huge literals to infinity, and the sign of
negative zero are outside the model; no claim below exercises them.
-/

/-- A Python float as produced by `float(<string>)`: NaN, a signed
infinity, or a finite value represented exactly as `m * 10 ^ e`. -/
inductive PyFloat : Type where
  | nan : PyFloat
  | inf : Bool → PyFloat
  | finite : Int → Int → PyFloat
deriving DecidableEq, Repr

/-- Python `==` on floats: NaN compares unequal to everything (itself
included); infinities compare by sign; finite values compare by the exact
number they denote. -/
def pyEq : PyFloat → PyFloat → Bool
  | PyFloat.nan, _ => false
  | _, PyFloat.nan => false
  | PyFloat.inf a, PyFloat.inf b => a == b
  | PyFloat.finite m e, PyFloat.finite n f =>
    m * Int.ofNat (10 ^ (e - min e f).toNat) == n * Int.ofNat (10 ^ (f - min e f).toNat)
  | _, _ => false

/-- Numeric value of a run of decimal digit characters. -/
def digitsToNat (ds : List Char) : Nat :=
  ds.foldl (fun a c => 10 * a + (c.toNat - 48)) 0

/-- ASCII whitespace accepted (and stripped) around a Python float literal. -/
def isAsciiWs (c : Char) : Bool :=
  c == ' ' || c == Char.ofNat 9 || c == Char.ofNat 10 || c == Char.ofNat 11 ||
  c == Char.ofNat 12 || c == Char.ofNat 13

/-- Strip leading and trailing whitespace. -/
def trimWs (cs : List Char) : List Char :=
  ((cs.dropWhile isAsciiWs).reverse.dropWhile isAsciiWs).reverse

/-- Underscores in a Python numeric literal are legal only when flanked by
digits on both sides; `prev` is the character just before the current
position. -/
def underscoresOk (prev : Option Char) : List Char → Bool
  | [] => true
  | c :: rest =>
    if c == Char.ofNat 95 then
      (match prev with
       | some p => p.isDigit
       | none => false) &&
      (match rest with
       | d :: _ => d.isDigit
       | [] => false) &&
      underscoresOk (some c) rest
    else underscoresOk (some c) rest

/-- Parse the numeric body of a Python float literal (sign already
consumed): optional integer digits, optional point with fraction digits —
at least one digit in the mantissa — and an optional `e`/`E` exponent with
at least one digit.  The whole input must be consumed. -/
def parseDecimal (neg : Bool) (cs0 : List Char) : Option PyFloat :=
  if !underscoresOk none cs0 then none else
  let cs := cs0.filter (fun c => !(c == Char.ofNat 95))
  let ip := cs.takeWhile Char.isDigit
  let r1 := cs.dropWhile Char.isDigit
  let fr : List Char × List Char :=
    match r1 with
    | c :: rest => if c == '.' then (rest.takeWhile Char.isDigit, rest.dropWhile Char.isDigit) else ([], r1)
    | [] => ([], [])
  let fp := fr.1
  let r2 := fr.2
  if ip.isEmpty && fp.isEmpty then none else
  let mAbs : Int := Int.ofNat (digitsToNat (ip ++ fp))
  let m : Int := if neg then -mAbs else mAbs
  let e0 : Int := -(fp.length : Int)
  match r2 with
  | [] => some (PyFloat.finite m e0)
  | c :: rest =>
    if c == 'e' || c == 'E' then
      let sr : Int × List Char :=
        match rest with
        | d :: t => if d == '+' then (1, t) else if d == '-' then (-1, t) else (1, rest)
        | [] => (1, [])
      let ed := sr.2.takeWhile Char.isDigit
      let r4 := sr.2.dropWhile Char.isDigit
      if ed.isEmpty || !r4.isEmpty then none
      else some (PyFloat.finite m (e0 + sr.1 * Int.ofNat (digitsToNat ed)))
    else none

/-- Python `float(<string>)`: strip whitespace, take an optional sign, then
either a case-insensitive `inf`/`infinity`/`nan` keyword or a decimal
literal; `none` models the `ValueError` raised on anything else. -/
def pyParseFloat (s : String) : Option PyFloat :=
  let cs := trimWs s.data
  let sb : Bool × List Char :=
    match cs with
    | c :: rest => if c == '+' then (false, rest) else if c == '-' then (true, rest) else (false, cs)
    | [] => (false, [])
  let low := sb.2.map Char.toLower
  if low == "inf".data || low == "infinity".data then some (PyFloat.inf sb.1)
  else if low == "nan".data then some PyFloat.nan
  else parseDecimal sb.1 sb.2

/-- `k` decimal digits of `n`, zero-padded on the left. -/
def padDigits : Nat → Nat → List Char
  | 0, _ => []
  | k + 1, n => padDigits k (n / 10) ++ [Nat.digitChar (n % 10)]

/-- Drop factors of ten from a scaled-decimal mantissa (fuel-bounded), so a
finite float prints without trailing fractional zeros. -/
def trimZerosAux : Nat → Int → Int → Int × Int
  | 0, m, e => (m, e)
  | k + 1, m, e =>
    if m % 10 == 0 && !(m == 0) then trimZerosAux k (m / 10) (e + 1) else (m, e)

/-- Python `str` on a float: `nan`, `inf`/`-inf`, or the positional decimal
form of the exact value (Python switches to scientific notation outside
roughly `1e-4 ≤ |x| < 1e16`; the values this development evaluates are all
inside that range). -/
def pyFloatStr : PyFloat → String
  | PyFloat.nan => "nan"
  | PyFloat.inf b => if b then "-inf" else "inf"
  | PyFloat.finite m0 e0 =>
    if m0 == 0 then "0.0" else
    let me := trimZerosAux e0.natAbs m0 e0
    let m := me.1
    let e := me.2
    let sgn := if m < 0 then "-" else ""
    let n := m.natAbs
    if 0 ≤ e then sgn ++ Nat.repr (n * 10 ^ e.toNat) ++ ".0"
    else
      let k := (-e).toNat
      sgn ++ Nat.repr (n / 10 ^ k) ++ "." ++ String.mk (padDigits k (n % 10 ^ k))

/-- Round a nonnegative rational `a / d` to the nearest integer, ties to
even — the rounding Python's fixed-point `format` uses. -/
def roundHalfEvenNat (a d : Nat) : Nat :=
  let q := a / d
  let r := a % d
  if 2 * r < d then q
  else if d < 2 * r then q + 1
  else if q % 2 == 0 then q else q + 1

/-- Python `format(x, ".<prec>f")`: fixed-point with exactly `prec`
fractional digits, rounding half to even; `nan` / `inf` print as their
names. -/
def pyFormatFixed (prec : Nat) : PyFloat → String
  | PyFloat.nan => "nan"
  | PyFloat.inf b => if b then "-inf" else "inf"
  | PyFloat.finite m e =>
    let neg := m < 0
    let n := m.natAbs
    let t : Int := e + prec
    let scaled : Nat :=
      if 0 ≤ t then n * 10 ^ t.toNat else roundHalfEvenNat n (10 ^ (-t).toNat)
    (if neg then "-" else "") ++ Nat.repr (scaled / 10 ^ prec) ++
      (if prec == 0 then "" else "." ++ String.mk (padDigits prec (scaled % 10 ^ prec)))

/-- Number of characters after the last `.` of a rendered number — its
count of decimal places. -/
def fracDigitsLen (s : String) : Nat :=
  (s.data.reverse.takeWhile (fun c => !(c == '.'))).length

/-- Python `str.upper`, on the ASCII range (no input in this development
leaves it). -/
def pyUpper (s : String) : String :=
  String.mk (s.data.map Char.toUpper)

/-- Python `repr` of a string: quoted with single quotes, or double quotes
when the text contains a single quote but no double quote; backslashes,
quotes, newline, carriage return and tab are escaped (escapes of other
non-printable characters are outside the model — no value in this
development contains any). -/
def pyReprStr (s : String) : String :=
  let sq := Char.ofNat 39
  let dq := Char.ofNat 34
  let bs := Char.ofNat 92
  let q := if s.data.any (· == sq) && !(s.data.any (· == dq)) then dq else sq
  let esc : Char → List Char := fun c =>
    if c == bs then [bs, bs]
    else if c == q then [bs, c]
    else if c == Char.ofNat 10 then [bs, 'n']
    else if c == Char.ofNat 13 then [bs, 'r']
    else if c == Char.ofNat 9 then [bs, 't']
    else [c]
  String.singleton q ++ String.mk (s.data.flatMap esc) ++ String.singleton q

/-- The Python exception kinds this core can raise: only the builtin
`ValueError`, carrying its message. -/
inductive PyError : Type where
  | valueError : String → PyError
deriving DecidableEq, Repr

/-- The message `float(<string>)` puts in its `ValueError`. -/
def floatErrMsg (s : String) : String :=
  "could not convert string to float: " ++ pyReprStr s

/-- Python `float(<string>)` as a fallible computation: the parsed value,
or the `ValueError` it raises. -/
def pyFloatE (s : String) : Except PyError PyFloat :=
  match pyParseFloat s with
  | some v => Except.ok v
  | none => Except.error (PyError.valueError (floatErrMsg s))

/-- A Python `datetime.datetime` value, to the precision this core uses. -/
structure PyDateTime : Type where
  year : Nat
  month : Nat
  day : Nat
  hour : Nat
  minute : Nat
  second : Nat
deriving DecidableEq, Repr

/-- English month abbreviations, as matched by `strptime`'s `%b`. -/
def monthAbbrevs : List String :=
  ["Jan", "Feb", "Mar", "Apr", "May", "Jun", "Jul", "Aug", "Sep", "Oct", "Nov", "Dec"]

/-- Month number for a (case-insensitive) month abbreviation. -/
def monthFromAbbrev (s : String) : Option Nat :=
  match monthAbbrevs.findIdx? (fun a => a.data.map Char.toLower == s.data.map Char.toLower) with
  | some i => some (i + 1)
  | none => none

def allDigits (cs : List Char) : Bool :=
  cs.all Char.isDigit

/-- Split a character list at every occurrence of `sep`. -/
def splitOnChar (sep : Char) : List Char → List (List Char)
  | [] => [[]]
  | c :: rest =>
    let r := splitOnChar sep rest
    if c == sep then [] :: r
    else
      match r with
      | h :: t => (c :: h) :: t
      | [] => [[c]]

/-- The `ValueError` the date/time parser raises on malformed input. -/
def timeErr (s : String) : Except PyError PyDateTime :=
  Except.error (PyError.valueError ("time data " ++ pyReprStr s ++ " does not match the expected format"))

/-- Modelled from the spec: `cd_to_datetime`, the external date/time
parsing collaborator imported from the repository's `helpers` module,
which is not under src/.  Per the spec it consumes a compact date/time
text with no seconds field — year, month abbreviation and day, then
hour and minute, as in "1900-Jan-01 00:00" — produces a calendar
date-time value, and fails distinguishably on malformed input. -/
def cd_to_datetime (s : String) : Except PyError PyDateTime :=
  match splitOnChar ' ' s.data with
  | [datePart, timePart] =>
    match splitOnChar '-' datePart, splitOnChar ':' timePart with
    | [y, mon, d], [hh, mm] =>
      if allDigits y && !y.isEmpty && allDigits d && !d.isEmpty &&
         allDigits hh && !hh.isEmpty && allDigits mm && !mm.isEmpty then
        match monthFromAbbrev (String.mk mon) with
        | some m =>
          let dd := digitsToNat d
          let h := digitsToNat hh
          let mi := digitsToNat mm
          if 1 ≤ dd ∧ dd ≤ 31 ∧ h ≤ 23 ∧ mi ≤ 59 then
            Except.ok ⟨digitsToNat y, m, dd, h, mi, 0⟩
          else timeErr s
        | none => timeErr s
      else timeErr s
    | _, _ => timeErr s
  | _ => timeErr s

/-- `k`-digit zero-padded decimal rendering of `n`. -/
def padNum (k : Nat) (n : Nat) : String :=
  let s := Nat.repr n
  String.mk (List.replicate (k - s.length) '0') ++ s

/-- Modelled from the spec: `datetime_to_str`, the external date/time
formatting collaborator imported from the repository's `helpers` module,
which is not under src/.  Per the spec it produces a display string for a
calendar date-time value with no seconds component: "YYYY-MM-DD HH:MM". -/
def datetime_to_str (dt : PyDateTime) : String :=
  padNum 4 dt.year ++ "-" ++ padNum 2 dt.month ++ "-" ++ padNum 2 dt.day ++ " " ++
    padNum 2 dt.hour ++ ":" ++ padNum 2 dt.minute

instance {ε α : Type} [DecidableEq ε] [DecidableEq α] : DecidableEq (Except ε α) := fun a b =>
  match a, b with
  | Except.ok x, Except.ok y =>
    if h : x = y then Decidable.isTrue (congrArg Except.ok h)
    else Decidable.isFalse (fun hh => h (Except.ok.inj hh))
  | Except.error x, Except.error y =>
    if h : x = y then Decidable.isTrue (congrArg Except.error h)
    else Decidable.isFalse (fun hh => h (Except.error.inj hh))
  | Except.ok _, Except.error _ => Decidable.isFalse (fun hh => Except.noConfusion hh)
  | Except.error _, Except.ok _ => Decidable.isFalse (fun hh => Except.noConfusion hh)

/-- The `NearEarthObject` record shape from src/models.py, parametrized by
the type of the close approaches it collects (the two entity types
reference each other; the parameter breaks the cycle).  Field order
follows the assignment order in `NearEarthObject.__init__`. -/
structure NearEarthObjectG (α : Type) : Type where
  designation : String
  hazardous : Bool
  diameter : PyFloat
  name : Option String
  approaches : List α

/-- The `CloseApproach` entity from src/models.py.  Field order follows
the assignment order in `CloseApproach.__init__`: the private raw
designation, the parsed time, distance, velocity, and the NEO reference. -/
inductive CloseApproach : Type where
  | mk : String → PyDateTime → PyFloat → PyFloat → Option (NearEarthObjectG CloseApproach) → CloseApproach

/-- The `NearEarthObject` entity from src/models.py. -/
abbrev NearEarthObject : Type := NearEarthObjectG CloseApproach

/-- The private `_designation` attribute: the raw NEO designation string. -/
def CloseApproach.rawDesignation : CloseApproach → String
  | CloseApproach.mk d _ _ _ _ => d

def CloseApproach.time : CloseApproach → PyDateTime
  | CloseApproach.mk _ t _ _ _ => t

def CloseApproach.distance : CloseApproach → PyFloat
  | CloseApproach.mk _ _ di _ _ => di

def CloseApproach.velocity : CloseApproach → PyFloat
  | CloseApproach.mk _ _ _ v _ => v

def CloseApproach.neo : CloseApproach → Option NearEarthObject
  | CloseApproach.mk _ _ _ _ n => n

/-- `NearEarthObject.__init__` from src/models.py: store the designation
verbatim; `hazardous` is the case-insensitive comparison of the flag with
"Y"; an empty diameter becomes `float("nan")` and any other diameter goes
through `float`, whose `ValueError` aborts construction; an empty name
becomes `None`; `approaches` starts empty. -/
def NearEarthObject.init (designation hazardous diameter name : String) :
    Except PyError NearEarthObject :=
  let haz : Bool := pyUpper hazardous == "Y"
  match (if diameter == "" then Except.ok PyFloat.nan else pyFloatE diameter) with
  | Except.error e => Except.error e
  | Except.ok dia =>
    let nm : Option String := if name == "" then none else some name
    Except.ok ⟨designation, haz, dia, nm, []⟩

/-- `CloseApproach.__init__` from src/models.py: store the raw designation,
parse the time with `cd_to_datetime`, parse distance and velocity with
`float` (in that order — the first `ValueError` aborts construction), and
start with no linked NEO. -/
def CloseApproach.init (time distance velocity designation : String) :
    Except PyError CloseApproach :=
  match cd_to_datetime time with
  | Except.error e => Except.error e
  | Except.ok t =>
    match pyFloatE distance with
    | Except.error e => Except.error e
    | Except.ok dist =>
      match pyFloatE velocity with
      | Except.error e => Except.error e
      | Except.ok vel => Except.ok (CloseApproach.mk designation t dist vel none)

/-- Python truthiness of an optional string: `None` and `""` are falsy. -/
def optStrTruthy : Option String → Bool
  | none => false
  | some s => !(s == "")

/-- The `fullname` property of `NearEarthObject`: `"<designation> (<name>)"`
when `self.name` is truthy, the designation alone otherwise. -/
def NearEarthObject.fullname (neo : NearEarthObject) : String :=
  if optStrTruthy neo.name then neo.designation ++ " (" ++ neo.name.getD "" ++ ")"
  else neo.designation

/-- The `time_str` property of `CloseApproach`: the approach time rendered
by `datetime_to_str`. -/
def CloseApproach.time_str (ca : CloseApproach) : String :=
  datetime_to_str ca.time

/-- `CloseApproach.__str__` from src/models.py: the human-readable
sentence, built from the raw `_designation` (never from `neo`). -/
def CloseApproach.str (ca : CloseApproach) : String :=
  "On " ++ ca.time_str ++ " " ++ ca.rawDesignation ++ " approaches Earth at a distance of " ++
    pyFloatStr ca.distance ++ " au and a velocity of " ++ pyFloatStr ca.velocity ++ " km/s."

/-- Python `repr` of a bool. -/
def pyBoolRepr (b : Bool) : String :=
  if b then "True" else "False"

/-- Python `repr` of an optional string: `None` or the quoted string. -/
def pyOptStrRepr : Option String → String
  | none => "None"
  | some s => pyReprStr s

/-- `NearEarthObject.__repr__` from src/models.py. -/
def NearEarthObject.reprStr (neo : NearEarthObject) : String :=
  "NearEarthObject(designation=" ++ pyReprStr neo.designation ++ ", name=" ++
    pyOptStrRepr neo.name ++ ", diameter=" ++ pyFormatFixed 3 neo.diameter ++
    ", hazardous=" ++ pyBoolRepr neo.hazardous ++ ")"

/-- Python `repr` of the `neo` attribute: `repr(None) = "None"` before
linking, the linked NEO's `__repr__` after. -/
def optNeoRepr : Option NearEarthObject → String
  | none => "None"
  | some n => NearEarthObject.reprStr n

/-- `CloseApproach.__repr__` from src/models.py. -/
def CloseApproach.reprStr (ca : CloseApproach) : String :=
  "CloseApproach(time=" ++ pyReprStr ca.time_str ++ ", distance=" ++
    pyFormatFixed 2 ca.distance ++ ", velocity=" ++ pyFormatFixed 2 ca.velocity ++
    ", neo=" ++ optNeoRepr ca.neo ++ ")"

/-- Replace the `neo` reference of a close approach, leaving every other
attribute unchanged (what the external linking component does). -/
def CloseApproach.withNeo : CloseApproach → Option NearEarthObject → CloseApproach
  | CloseApproach.mk d t di v _, n => CloseApproach.mk d t di v n

example : pyParseFloat "0" = some (PyFloat.finite 0 0) := by decide
example : pyParseFloat "13.67" = some (PyFloat.finite 1367 (-2)) := by decide
example : pyParseFloat "0.092" = some (PyFloat.finite 92 (-3)) := by decide
example : pyParseFloat "nan" = some PyFloat.nan := by decide
example : pyParseFloat "-1.5e3" = some (PyFloat.finite (-15) 2) := by decide
example : pyParseFloat "1_0.5" = some (PyFloat.finite 105 (-1)) := by decide
example : pyParseFloat "" = none := by decide
example : pyParseFloat "abc" = none := by decide
example : pyParseFloat "1_" = none := by decide
example : pyParseFloat "." = none := by decide
example : pyParseFloat "  +2.5  " = some (PyFloat.finite 25 (-1)) := by decide
example : pyParseFloat "INFINITY" = some (PyFloat.inf false) := by decide
example : pyFloatStr (PyFloat.finite 92 (-3)) = "0.092" := by decide
example : pyFloatStr (PyFloat.finite 1367 (-2)) = "13.67" := by decide
example : pyFloatStr (PyFloat.finite 1500 (-2)) = "15.0" := by decide
example : pyFloatStr (PyFloat.finite (-2) 0) = "-2.0" := by decide
example : pyFormatFixed 2 (PyFloat.finite 92 (-3)) = "0.09" := by decide
example : pyFormatFixed 2 (PyFloat.finite 125 (-3)) = "0.12" := by decide
example : pyFormatFixed 2 (PyFloat.finite 135 (-3)) = "0.14" := by decide
example : pyFormatFixed 3 (PyFloat.nan) = "nan" := by decide
example : pyFormatFixed 2 (PyFloat.finite 5 0) = "5.00" := by decide
example : pyEq PyFloat.nan PyFloat.nan = false := by decide
example : pyEq (PyFloat.finite 5 (-1)) (PyFloat.finite 50 (-2)) = true := by decide
example : pyUpper "y" = "Y" := by decide
example : pyReprStr "433" = String.singleton (Char.ofNat 39) ++ "433" ++ String.singleton (Char.ofNat 39) := by decide
example : cd_to_datetime "1900-Jan-01 00:00" = Except.ok ⟨1900, 1, 1, 0, 0, 0⟩ := by decide
example : (cd_to_datetime "2020-Dec-31 23:59").map datetime_to_str = Except.ok "2020-12-31 23:59" := by decide
example : cd_to_datetime "not a date" = timeErr "not a date" := by decide

theorem toNat_ofNat_of_valid {n : Nat} (h : n.isValidChar) : (Char.ofNat n).toNat = n := by
  unfold Char.ofNat
  rw [dif_pos h]
  simp [Char.ofNatAux, Char.toNat, UInt32.toNat]

theorem char_toNat_inj {a b : Char} (h : a.toNat = b.toNat) : a = b :=
  Char.ext (UInt32.ext h)

/-- The only characters whose uppercase form is `Y` are `Y` and `y`. -/
theorem toUpper_eq_Y (c : Char) : c.toUpper = 'Y' ↔ c = 'Y' ∨ c = 'y' := by
  constructor
  · intro h
    unfold Char.toUpper at h
    by_cases hc : c.toNat ≥ 97 ∧ c.toNat ≤ 122
    · rw [if_pos hc] at h
      have hv : (c.toNat - 32).isValidChar := by
        left
        omega
      have h2 : (Char.ofNat (c.toNat - 32)).toNat = c.toNat - 32 := toNat_ofNat_of_valid hv
      have h3 : c.toNat - 32 = (89 : Nat) := by
        rw [← h2, h]
        rfl
      right
      apply char_toNat_inj
      show c.toNat = 121
      omega
    · rw [if_neg hc] at h
      left
      exact h
  · intro h
    rcases h with h | h <;> subst h <;> decide

/-- The only strings whose Python uppercase form is `"Y"` are `"Y"` and
`"y"` — i.e. case-insensitive equality with the affirmative marker. -/
theorem pyUpper_eq_Y (s : String) : pyUpper s = "Y" ↔ s = "Y" ∨ s = "y" := by
  constructor
  · intro h
    have hd : s.data.map Char.toUpper = ['Y'] := congrArg String.data h
    have hex : ∃ c, s.data = [c] ∧ c.toUpper = 'Y' := by
      cases hl : s.data with
      | nil => rw [hl] at hd; simp at hd
      | cons c t =>
        cases t with
        | nil =>
          rw [hl] at hd
          simp at hd
          exact ⟨c, rfl, hd⟩
        | cons c' t' => rw [hl] at hd; simp at hd
    obtain ⟨c, hc, hY⟩ := hex
    have hs : s = String.mk s.data := rfl
    rcases (toUpper_eq_Y c).1 hY with h1 | h1
    · left; rw [hs, hc, h1]
    · right; rw [hs, hc, h1]
  · rintro (rfl | rfl) <;> decide

/-- Full characterization of successful `NearEarthObject` construction. -/
theorem neo_init_ok_iff (d h dia n : String) (neo : NearEarthObject) :
    NearEarthObject.init d h dia n = Except.ok neo ↔
      ∃ v, (if dia == "" then some PyFloat.nan else pyParseFloat dia) = some v ∧
        neo = ⟨d, pyUpper h == "Y", v, if n == "" then none else some n, []⟩ := by
  unfold NearEarthObject.init pyFloatE
  cases hd : (dia == "") with
  | true =>
    simp only [if_true]
    constructor
    · intro he
      exact ⟨PyFloat.nan, rfl, (Except.ok.inj he).symm⟩
    · rintro ⟨v, hv, rfl⟩
      cases hv
      rfl
  | false =>
    simp only [Bool.false_eq_true, if_false]
    cases hp : pyParseFloat dia with
    | none =>
      simp only [hp]
      constructor
      · intro he
        cases he
      · rintro ⟨v, hv, _⟩
        cases hv
    | some v0 =>
      simp only [hp]
      constructor
      · intro he
        exact ⟨v0, rfl, (Except.ok.inj he).symm⟩
      · rintro ⟨v, hv, rfl⟩
        cases hv
        rfl

/-- Full characterization of successful `CloseApproach` construction. -/
theorem ca_init_ok_iff (t ds vs des : String) (ca : CloseApproach) :
    CloseApproach.init t ds vs des = Except.ok ca ↔
      ∃ tv dv vv, cd_to_datetime t = Except.ok tv ∧ pyParseFloat ds = some dv ∧
        pyParseFloat vs = some vv ∧ ca = CloseApproach.mk des tv dv vv none := by
  unfold CloseApproach.init pyFloatE
  cases ht : cd_to_datetime t with
  | error e =>
    constructor
    · intro he
      cases he
    · rintro ⟨tv, dv, vv, htv, _, _, _⟩
      cases htv
  | ok tv0 =>
    cases hds : pyParseFloat ds with
    | none =>
      simp only [hds]
      constructor
      · intro he
        cases he
      · rintro ⟨tv, dv, vv, htv, hdv, _, _⟩
        cases hdv
    | some dv0 =>
      simp only [hds]
      cases hvs : pyParseFloat vs with
      | none =>
        simp only [hvs]
        constructor
        · intro he
          cases he
        · rintro ⟨tv, dv, vv, htv, hdv, hvv, _⟩
          cases hvv
      | some vv0 =>
        simp only [hvs]
        constructor
        · intro he
          refine ⟨tv0, dv0, vv0, rfl, rfl, rfl, ?_⟩
          exact (Except.ok.inj he).symm
        · rintro ⟨tv, dv, vv, htv, hdv, hvv, rfl⟩
          cases Except.ok.inj htv
          cases hdv
          cases hvv
          rfl

/-- A failed diameter parse aborts `NearEarthObject` construction with the
`ValueError` from `float`. -/
theorem neo_init_err (d h dia n : String) (hne : (dia == "") = false)
    (hp : pyParseFloat dia = none) :
    NearEarthObject.init d h dia n = Except.error (PyError.valueError (floatErrMsg dia)) := by
  unfold NearEarthObject.init pyFloatE
  simp only [hne, Bool.false_eq_true, if_false, hp]

/-- A failed distance parse aborts `CloseApproach` construction with the
`ValueError` from `float` (once the time has parsed). -/
theorem ca_init_err_distance (t ds vs des : String) (tv : PyDateTime)
    (ht : cd_to_datetime t = Except.ok tv) (hp : pyParseFloat ds = none) :
    CloseApproach.init t ds vs des = Except.error (PyError.valueError (floatErrMsg ds)) := by
  unfold CloseApproach.init pyFloatE
  simp only [ht, hp]

/-- A failed velocity parse aborts `CloseApproach` construction with the
`ValueError` from `float` (once time and distance have parsed). -/
theorem ca_init_err_velocity (t ds vs des : String) (tv : PyDateTime) (dv : PyFloat)
    (ht : cd_to_datetime t = Except.ok tv) (hd : pyParseFloat ds = some dv)
    (hp : pyParseFloat vs = none) :
    CloseApproach.init t ds vs des = Except.error (PyError.valueError (floatErrMsg vs)) := by
  unfold CloseApproach.init pyFloatE
  simp only [ht, hd, hp]

/-- Claim C1 — for every string flag passed to `NearEarthObject`
construction, the stored `hazardous` attribute is true iff the flag equals
"Y" case-insensitively (i.e. is exactly "Y" or "y"); every other string
yields `hazardous = false`, and the flag normalization never raises: with
the other inputs valid, construction succeeds for every flag value. -/
theorem neo_hazardous_iff_flag_is_Y :
    (∀ d flag dia n neo, NearEarthObject.init d flag dia n = Except.ok neo →
      (neo.hazardous = true ↔ (flag = "Y" ∨ flag = "y"))) ∧
    (∀ d flag n, ∃ neo, NearEarthObject.init d flag "" n = Except.ok neo) := by
  constructor
  · intro d flag dia n neo hok
    obtain ⟨v, _, rfl⟩ := (neo_init_ok_iff d flag dia n neo).1 hok
    show (pyUpper flag == "Y") = true ↔ _
    rw [beq_iff_eq]
    exact pyUpper_eq_Y flag
  · intro d flag n
    exact ⟨_, (neo_init_ok_iff d flag "" n _).2 ⟨PyFloat.nan, rfl, rfl⟩⟩

/-- Concrete instance of the C1 theorem at the lowercase flag "y". -/
theorem neo_hazardous_iff_flag_is_Y_witness :
    (⟨"433", true, PyFloat.nan, none, []⟩ : NearEarthObject).hazardous = true ↔
      ("y" = "Y" ∨ "y" = "y") :=
  neo_hazardous_iff_flag_is_Y.1 "433" "y" "" "" ⟨"433", true, PyFloat.nan, none, []⟩ rfl

/-- Claim C2 — an empty diameter input is stored as the NaN "unknown"
sentinel; every parseable non-empty input is stored as exactly the parsed
value; in particular "0" is stored as numeric zero, not the sentinel. -/
theorem neo_diameter_normalization :
    (∀ d h n, ∃ neo, NearEarthObject.init d h "" n = Except.ok neo ∧
      neo.diameter = PyFloat.nan) ∧
    (∀ d h dia n v neo, pyParseFloat dia = some v →
      NearEarthObject.init d h dia n = Except.ok neo → neo.diameter = v) ∧
    (∀ d h n, ∃ neo, NearEarthObject.init d h "0" n = Except.ok neo ∧
      neo.diameter = PyFloat.finite 0 0) := by
  refine ⟨?_, ?_, ?_⟩
  · intro d h n
    exact ⟨_, (neo_init_ok_iff d h "" n _).2 ⟨PyFloat.nan, rfl, rfl⟩, rfl⟩
  · intro d h dia n v neo hp hok
    obtain ⟨v', hv', rfl⟩ := (neo_init_ok_iff d h dia n neo).1 hok
    cases hd : (dia == "") with
    | true =>
      have : dia = "" := eq_of_beq hd
      rw [this] at hp
      cases hp
    | false =>
      rw [hd, if_neg (by simp)] at hv'
      rw [hp] at hv'
      cases Option.some.inj hv'
      rfl
  · intro d h n
    exact ⟨_, (neo_init_ok_iff d h "0" n _).2 ⟨PyFloat.finite 0 0, rfl, rfl⟩, rfl⟩

/-- Concrete instance of the C2 theorem: diameter "2.5" is stored as the
parsed value 2.5. -/
theorem neo_diameter_normalization_witness :
    (⟨"433", false, PyFloat.finite 25 (-1), none, []⟩ : NearEarthObject).diameter =
      PyFloat.finite 25 (-1) :=
  neo_diameter_normalization.2.1 "433" "N" "2.5" "" (PyFloat.finite 25 (-1))
    ⟨"433", false, PyFloat.finite 25 (-1), none, []⟩ rfl rfl

/-- Claim C3 (amended) — every non-empty, non-numeric string supplied as
diameter to `NearEarthObject` construction, or as distance or velocity to
`CloseApproach` construction, aborts construction with the builtin
`ValueError` reporting the unconvertible raw value, and no entity is
returned (the result is `Except.error`, which carries no entity).  The
error is the same `ValueError` whichever numeric field failed. -/
theorem invalid_measurement_raises_valueerror (s : String) (hne : s ≠ "")
    (hp : pyParseFloat s = none) :
    (∀ d h n, NearEarthObject.init d h s n =
      Except.error (PyError.valueError (floatErrMsg s))) ∧
    (∀ t tv vs des, cd_to_datetime t = Except.ok tv →
      CloseApproach.init t s vs des =
        Except.error (PyError.valueError (floatErrMsg s))) ∧
    (∀ t tv ds dv des, cd_to_datetime t = Except.ok tv → pyParseFloat ds = some dv →
      CloseApproach.init t ds s des =
        Except.error (PyError.valueError (floatErrMsg s))) := by
  have hb : (s == "") = false := beq_eq_false_iff_ne.2 hne
  refine ⟨?_, ?_, ?_⟩
  · intro d h n
    exact neo_init_err d h s n hb hp
  · intro t tv vs des ht
    exact ca_init_err_distance t s vs des tv ht hp
  · intro t tv ds dv des ht hd
    exact ca_init_err_velocity t ds s des tv dv ht hd hp

/-- Concrete instance of the C3 theorem: diameter "xyz" aborts
`NearEarthObject` construction with `float`'s `ValueError`. -/
theorem invalid_measurement_raises_valueerror_witness :
    NearEarthObject.init "433" "N" "xyz" "Eros" =
      Except.error (PyError.valueError (floatErrMsg "xyz")) :=
  (invalid_measurement_raises_valueerror "xyz" (by decide) (by decide)).1 "433" "N" "Eros"

/-- Counterexample to Claim C3 as stated: the error is not a per-field
typed error the caller can tell apart from other failures.  A bad distance
and a bad velocity (and likewise a bad NEO diameter) raise the identical
builtin `ValueError` value, so nothing in the raised error identifies
which field (or even which entity) failed. -/
theorem measurement_error_not_distinguishable_per_field :
    CloseApproach.init "1900-Jan-01 00:00" "abc" "1.0" "433" =
      CloseApproach.init "1900-Jan-01 00:00" "1.0" "abc" "433" ∧
    CloseApproach.init "1900-Jan-01 00:00" "abc" "1.0" "433" =
      Except.error (PyError.valueError (floatErrMsg "abc")) ∧
    NearEarthObject.init "433" "N" "abc" "" =
      Except.error (PyError.valueError (floatErrMsg "abc")) :=
  ⟨rfl, rfl, rfl⟩

/-- Claim C4 — an empty name input is stored as absent (`None`), and every
non-empty name input is stored verbatim. -/
theorem neo_name_normalization (d h dia n : String) (neo : NearEarthObject)
    (hok : NearEarthObject.init d h dia n = Except.ok neo) :
    (n = "" → neo.name = none) ∧ (n ≠ "" → neo.name = some n) := by
  obtain ⟨v, _, rfl⟩ := (neo_init_ok_iff d h dia n neo).1 hok
  constructor
  · intro hn
    show (if n == "" then none else some n) = none
    rw [if_pos (by rw [hn]; rfl)]
  · intro hn
    show (if n == "" then none else some n) = some n
    rw [if_neg (by simp [hn])]

/-- Concrete instance of the C4 theorem at the non-empty name "Eros". -/
theorem neo_name_normalization_witness :
    (⟨"433", false, PyFloat.nan, some "Eros", []⟩ : NearEarthObject).name = some "Eros" :=
  (neo_name_normalization "433" "N" "" "Eros"
    ⟨"433", false, PyFloat.nan, some "Eros", []⟩ rfl).2 (by decide)

/-- Claim C5 — for every constructed `NearEarthObject`, `fullname` is
"<designation> (<name>)" when the name is present and the designation
alone when it is absent.  In this embedding `fullname` is a total function
of the entity value, so it has no side effects: repeated calls return the
same string and cannot change any attribute. -/
theorem neo_fullname_spec (d h dia n : String) (neo : NearEarthObject)
    (hok : NearEarthObject.init d h dia n = Except.ok neo) :
    (∀ nm, neo.name = some nm → neo.fullname = d ++ " (" ++ nm ++ ")") ∧
    (neo.name = none → neo.fullname = d) := by
  obtain ⟨v, _, rfl⟩ := (neo_init_ok_iff d h dia n neo).1 hok
  by_cases hn : n = ""
  · subst hn
    constructor
    · intro nm hnm
      simp at hnm
    · intro _
      rfl
  · have hb : (n == "") = false := beq_eq_false_iff_ne.2 hn
    constructor
    · intro nm hnm
      simp only [hb] at hnm
      simp at hnm
      subst hnm
      unfold NearEarthObject.fullname optStrTruthy
      simp [hb]
    · intro hno
      simp only [hb] at hno
      simp at hno

/-- Concrete instance of the C5 theorem: designation "433" with name
"Eros" gives the full name "433 (Eros)". -/
theorem neo_fullname_spec_witness :
    NearEarthObject.fullname (⟨"433", false, PyFloat.nan, some "Eros", []⟩ : NearEarthObject) =
      "433" ++ " (" ++ "Eros" ++ ")" :=
  (neo_fullname_spec "433" "N" "" "Eros"
    ⟨"433", false, PyFloat.nan, some "Eros", []⟩ rfl).1 "Eros" rfl

/-- Claim C6 — the human-readable sentence of a `CloseApproach` is exactly
"On <formatted time> <raw designation> approaches Earth at a distance of
<distance> au and a velocity of <velocity> km/s.", built from the raw
`_designation` string; any two approaches agreeing on time, distance,
velocity and raw designation — whatever their `neo` references — have the
identical sentence. -/
theorem ca_str_template_and_neo_independent (ca1 ca2 : CloseApproach)
    (ht : ca1.time = ca2.time) (hd : ca1.distance = ca2.distance)
    (hv : ca1.velocity = ca2.velocity) (hr : ca1.rawDesignation = ca2.rawDesignation) :
    ca1.str = "On " ++ ca1.time_str ++ " " ++ ca1.rawDesignation ++
      " approaches Earth at a distance of " ++ pyFloatStr ca1.distance ++
      " au and a velocity of " ++ pyFloatStr ca1.velocity ++ " km/s." ∧
    ca1.str = ca2.str := by
  constructor
  · rfl
  · unfold CloseApproach.str CloseApproach.time_str
    rw [ht, hd, hv, hr]

/-- Concrete instance of the C6 theorem: an unlinked approach and the same
approach linked to an NEO produce the identical sentence, and that
sentence is the expected rendered text. -/
theorem ca_str_template_and_neo_independent_witness :
    CloseApproach.str (CloseApproach.mk "2015 AB" ⟨1900, 1, 1, 0, 0, 0⟩
        (PyFloat.finite 92 (-3)) (PyFloat.finite 1367 (-2)) none) =
      CloseApproach.str (CloseApproach.mk "2015 AB" ⟨1900, 1, 1, 0, 0, 0⟩
        (PyFloat.finite 92 (-3)) (PyFloat.finite 1367 (-2))
        (some ⟨"2015 AB", false, PyFloat.nan, none, []⟩)) ∧
    CloseApproach.str (CloseApproach.mk "2015 AB" ⟨1900, 1, 1, 0, 0, 0⟩
        (PyFloat.finite 92 (-3)) (PyFloat.finite 1367 (-2)) none) =
      "On 1900-01-01 00:00 2015 AB approaches Earth at a distance of 0.092 au and a velocity of 13.67 km/s." :=
  ⟨(ca_str_template_and_neo_independent
      (CloseApproach.mk "2015 AB" ⟨1900, 1, 1, 0, 0, 0⟩
        (PyFloat.finite 92 (-3)) (PyFloat.finite 1367 (-2)) none)
      (CloseApproach.mk "2015 AB" ⟨1900, 1, 1, 0, 0, 0⟩
        (PyFloat.finite 92 (-3)) (PyFloat.finite 1367 (-2))
        (some ⟨"2015 AB", false, PyFloat.nan, none, []⟩))
      rfl rfl rfl rfl).2, by decide⟩

/-- Claim C8 — immediately after construction, a `NearEarthObject` has an
empty `approaches` sequence and a `CloseApproach` has no `neo` reference:
the constructors never append an approach or set a link. -/
theorem constructed_links_empty :
    (∀ d h dia n neo, NearEarthObject.init d h dia n = Except.ok neo →
      neo.approaches = []) ∧
    (∀ t ds vs des ca, CloseApproach.init t ds vs des = Except.ok ca →
      ca.neo = none) := by
  constructor
  · intro d h dia n neo hok
    obtain ⟨v, _, rfl⟩ := (neo_init_ok_iff d h dia n neo).1 hok
    rfl
  · intro t ds vs des ca hok
    obtain ⟨tv, dv, vv, _, _, _, rfl⟩ := (ca_init_ok_iff t ds vs des ca).1 hok
    rfl

/-- Concrete instance of the C8 theorem: a freshly constructed approach is
unlinked. -/
theorem constructed_links_empty_witness :
    (CloseApproach.mk "2015 AB" ⟨1900, 1, 1, 0, 0, 0⟩ (PyFloat.finite 92 (-3))
      (PyFloat.finite 1367 (-2)) none).neo = none :=
  constructed_links_empty.2 "1900-Jan-01 00:00" "0.092" "13.67" "2015 AB" _ rfl

/-- Claim C9 — the designation input is stored verbatim with no
validation: every successful construction stores exactly the input string,
and (with the other fields valid) construction succeeds for every
designation, the empty string included, so an empty-designation entity is
constructible through the public interface. -/
theorem designation_stored_verbatim :
    (∀ d h dia n neo, NearEarthObject.init d h dia n = Except.ok neo →
      neo.designation = d) ∧
    (∀ d h n, ∃ neo, NearEarthObject.init d h "" n = Except.ok neo ∧
      neo.designation = d) := by
  constructor
  · intro d h dia n neo hok
    obtain ⟨v, _, rfl⟩ := (neo_init_ok_iff d h dia n neo).1 hok
    rfl
  · intro d h n
    exact ⟨_, (neo_init_ok_iff d h "" n _).2 ⟨PyFloat.nan, rfl, rfl⟩, rfl⟩

/-- Concrete instance of the C9 theorem at the empty designation. -/
theorem designation_stored_verbatim_witness :
    (⟨"", false, PyFloat.nan, none, []⟩ : NearEarthObject).designation = "" :=
  designation_stored_verbatim.1 "" "N" "" "" ⟨"", false, PyFloat.nan, none, []⟩ rfl

/-- Claim C10 — the non-empty diameter input "nan" is accepted and stored
as NaN, the very value the "unknown" sentinel uses for an empty input, and
the stored value does not compare equal to itself (nor to anything else)
under Python float equality. -/
theorem nan_diameter_matches_unknown_sentinel :
    ∃ neo neoU : NearEarthObject,
      NearEarthObject.init "433" "N" "nan" "" = Except.ok neo ∧
      NearEarthObject.init "433" "N" "" "" = Except.ok neoU ∧
      neo.diameter = PyFloat.nan ∧
      neo.diameter = neoU.diameter ∧
      pyEq neo.diameter neo.diameter = false ∧
      (∀ v, pyEq neo.diameter v = false) :=
  ⟨⟨"433", false, PyFloat.nan, none, []⟩, ⟨"433", false, PyFloat.nan, none, []⟩,
    rfl, rfl, rfl, rfl, rfl, fun v => by cases v <;> rfl⟩

theorem padDigits_length (k : Nat) : ∀ n, (padDigits k n).length = k := by
  induction k with
  | zero => intro n; rfl
  | succ k ih => intro n; simp [padDigits, ih]

theorem digitChar_ne_dot (m : Nat) (h : m < 10) : (Nat.digitChar m == '.') = false := by
  interval_cases m <;> decide

theorem padDigits_no_dot (k : Nat) : ∀ n, (padDigits k n).all (fun c => !(c == '.')) = true := by
  induction k with
  | zero => intro n; rfl
  | succ k ih =>
    intro n
    simp only [padDigits, List.all_append, ih, Bool.true_and, List.all_cons, List.all_nil]
    simp [digitChar_ne_dot (n % 10) (Nat.mod_lt _ (by omega))]

theorem takeWhile_append_stop {p : Char → Bool} (l1 : List Char) (a : Char) (l2 : List Char)
    (h : l1.all p = true) (ha : p a = false) :
    (l1 ++ a :: l2).takeWhile p = l1 := by
  induction l1 with
  | nil => simp [List.takeWhile_cons, ha]
  | cons x xs ih =>
    simp only [List.all_cons, Bool.and_eq_true] at h
    simp [List.takeWhile_cons, h.1, ih h.2]

theorem fracLen_of_shape (A pd : List Char) (hpd : pd.all (fun c => !(c == '.')) = true) :
    ((A ++ '.' :: pd).reverse.takeWhile (fun c => !(c == '.'))).length = pd.length := by
  rw [List.reverse_append, List.reverse_cons, List.append_assoc, List.singleton_append]
  rw [takeWhile_append_stop pd.reverse '.' A.reverse (by simpa using hpd) (by decide)]
  exact List.length_reverse pd

/-- Fixed-point formatting of a finite float at precision two always ends
in a point followed by exactly two digits. -/
theorem format2_shape (m e : Int) : ∃ (a b : String) (x : Nat),
    pyFormatFixed 2 (PyFloat.finite m e) = a ++ b ++ ("." ++ String.mk (padDigits 2 x)) :=
  ⟨(if m < 0 then "-" else ""),
    Nat.repr ((if (0 : Int) ≤ e + (2 : Nat) then m.natAbs * 10 ^ ((e + (2 : Nat)).toNat)
      else roundHalfEvenNat m.natAbs (10 ^ ((-(e + (2 : Nat))).toNat))) / 10 ^ 2),
    ((if (0 : Int) ≤ e + (2 : Nat) then m.natAbs * 10 ^ ((e + (2 : Nat)).toNat)
      else roundHalfEvenNat m.natAbs (10 ^ ((-(e + (2 : Nat))).toNat))) % 10 ^ 2), rfl⟩

theorem fracDigitsLen_format2 (m e : Int) :
    fracDigitsLen (pyFormatFixed 2 (PyFloat.finite m e)) = 2 := by
  obtain ⟨a, b, x, hshape⟩ := format2_shape m e
  rw [hshape]
  unfold fracDigitsLen
  have hdata : (a ++ b ++ ("." ++ String.mk (padDigits 2 x))).data =
      (a.data ++ b.data) ++ '.' :: padDigits 2 x := rfl
  rw [hdata, fracLen_of_shape _ _ (padDigits_no_dot 2 x), padDigits_length]

/-- Claim C7 — the machine-oriented representation of a `CloseApproach`
renders, in fixed field order, the formatted (and quoted) approach time,
the distance and the velocity each as fixed-point numbers with exactly two
decimal places, and finally the full representation of the linked NEO or
the literal `None` marker when no NEO is linked. -/
theorem ca_repr_fixed_format (ca : CloseApproach) :
    CloseApproach.reprStr ca = "CloseApproach(time=" ++ pyReprStr ca.time_str ++
      ", distance=" ++ pyFormatFixed 2 ca.distance ++ ", velocity=" ++
      pyFormatFixed 2 ca.velocity ++ ", neo=" ++ optNeoRepr ca.neo ++ ")" ∧
    optNeoRepr none = "None" ∧
    (∀ nn : NearEarthObject, optNeoRepr (some nn) = NearEarthObject.reprStr nn) ∧
    (∀ m e : Int, fracDigitsLen (pyFormatFixed 2 (PyFloat.finite m e)) = 2) :=
  ⟨rfl, rfl, fun _ => rfl, fracDigitsLen_format2⟩
